import Mathlib

/-!
Shallow embedding of the transcript-resolution core of `server.js`
(the three-adapter revision: `getTranscript` with Methods 1-3 and the
`POST /api/convert` handler).  Adapter A is the `youtube-transcript`
scraper (Method 1), Adapter B the `youtube-caption-extractor` call
(Method 2), Adapter C the `youtube.captions.list` probe (Method 3).
Network outcomes are inputs: each adapter call either resolves with a
value or rejects with an error message.
-/

deriving instance DecidableEq for Except

namespace YtTranscript

/-- One timed caption segment as produced by the caption sources; only the
`text` field is read by `getTranscript` (`item => item.text`). -/
structure TranscriptSegment where
  text : String
  deriving Repr, DecidableEq

/-- JS `Array.prototype.join(sep)`: the elements concatenated with `sep`
between consecutive elements, `""` for the empty array. -/
def jsJoin (sep : String) : List String → String
  | [] => ""
  | [x] => x
  | x :: y :: xs => x ++ sep ++ jsJoin sep (y :: xs)

/-- Helper for `occursWithin`: does `pat` match at the head of `s`? -/
def leadingMatch : List Char → List Char → Bool
  | [], _ => true
  | _ :: _, [] => false
  | p :: ps, c :: cs => p == c && leadingMatch ps cs

/-- Does `pat` occur contiguously anywhere inside `s`? -/
def occursWithin (pat : List Char) : List Char → Bool
  | [] => pat.isEmpty
  | c :: rest => leadingMatch pat (c :: rest) || occursWithin pat rest

/-- JS `String.prototype.includes(pattern)`: case-sensitive substring
occurrence test, as used by `e.includes(...)` in `server.js`. -/
def strIncludes (s pattern : String) : Bool :=
  occursWithin pattern.data s.data

/-- Message thrown by `getTranscript` when some accumulated error matches a
no-captions trigger phrase (server.js line 166). -/
def noCaptionsMessage : String :=
  "This video does not have available captions. Please try a different video."

/-- Message thrown by `getTranscript` when some accumulated error matches a
private/unavailable trigger phrase (server.js line 168). -/
def unavailableMessage : String :=
  "This video is private or unavailable."

/-- Generic fallback message thrown by `getTranscript` (server.js line 170). -/
def genericFailureMessage : String :=
  "Failed to fetch transcript. Please make sure the video has captions enabled and try again."

/-- Message of the error constructed inside Method 3 when `captions.list`
returns at least one caption track (server.js line 152). -/
def captionsExistMessage : String :=
  "Captions exist but could not be accessed. The video might have restricted captions."

/-- The no-captions trigger test of server.js lines 163-165:
`e.includes('Could not find automatic captions') || e.includes('Transcript is disabled') || e.includes('subtitles are disabled')`. -/
def noCaptionsSignal (e : String) : Bool :=
  strIncludes e "Could not find automatic captions" ||
  strIncludes e "Transcript is disabled" ||
  strIncludes e "subtitles are disabled"

/-- The private/unavailable trigger test of server.js line 167:
`e.includes('private') || e.includes('unavailable')`. -/
def unavailableSignal (e : String) : Bool :=
  strIncludes e "private" || strIncludes e "unavailable"

/-- The classification at the end of `getTranscript` (server.js lines
163-171): the message of the single error thrown after all methods failed,
chosen from the accumulated `errors` array. -/
def classify (errors : List String) : String :=
  if errors.any noCaptionsSignal then noCaptionsMessage
  else if errors.any unavailableSignal then unavailableMessage
  else genericFailureMessage

/-- The outcomes the three external caption sources would produce for the
requested video: Adapters A and B resolve with a segment array or reject
with an error message; the `captions.list` probe (Adapter C) resolves with
the number of caption-track items (`data.items.length`, the only datum the
code inspects) or rejects with an error message. -/
structure AdapterOutcomes where
  a : Except String (List TranscriptSegment)
  b : Except String (List TranscriptSegment)
  c : Except String Nat
  deriving Repr, DecidableEq

/-- Observable outcome of one `getTranscript` run: the returned transcript
text or the thrown error message, the final contents of the `errors`
array, and which adapters were invoked. -/
structure Resolution where
  result : Except String String
  errors : List String
  invokedA : Bool
  invokedB : Bool
  invokedC : Bool
  deriving Repr, DecidableEq

/-- Method 3 of `getTranscript` (server.js lines 141-157): the `errors`
array after the `captions.list` probe.  When at least one caption track is
listed the code throws the captions-exist error inside its own
`try`, so that error is caught by the adjacent `catch` and pushed onto
`errors`; when the probe itself rejects, its message is pushed; when no
tracks are listed nothing is pushed. -/
def method3Errors (c : Except String Nat) (errs : List String) : List String :=
  match c with
  | .ok n => if 0 < n then errs ++ [captionsExistMessage] else errs
  | .error m => errs ++ [m]

/-- Continuation of `getTranscript` from Method 3 on: run the probe,
accumulate its error if any, then throw the classified error
(server.js lines 141-171). -/
def getTranscriptFromC (o : AdapterOutcomes) (errs : List String) : Resolution :=
  let errs2 := method3Errors o.c errs
  { result := .error (classify errs2), errors := errs2,
    invokedA := true, invokedB := true, invokedC := true }

/-- Continuation of `getTranscript` from Method 2 on (server.js lines
124-139): return the joined subtitles when non-empty, otherwise fall
through to Method 3, pushing the rejection message if Method 2 rejected. -/
def getTranscriptFromB (o : AdapterOutcomes) (errs : List String) : Resolution :=
  match o.b with
  | .ok items =>
      if 0 < items.length then
        { result := .ok (jsJoin " " (items.map TranscriptSegment.text)), errors := errs,
          invokedA := true, invokedB := true, invokedC := false }
      else getTranscriptFromC o errs
  | .error m => getTranscriptFromC o (errs ++ [m])

/-- `getTranscript(videoId)` of server.js lines 102-172, as a function of
the three adapters' outcomes.  Method 1 returns the joined transcript when
non-empty, otherwise falls through, pushing the rejection message if
Method 1 rejected. -/
def getTranscript (o : AdapterOutcomes) : Resolution :=
  match o.a with
  | .ok items =>
      if 0 < items.length then
        { result := .ok (jsJoin " " (items.map TranscriptSegment.text)), errors := [],
          invokedA := true, invokedB := false, invokedC := false }
      else getTranscriptFromB o []
  | .error m => getTranscriptFromB o [m]

/-- Body of the 400 response for a missing video id (server.js line 43). -/
def requiredIdMessage : String := "Video ID is required"

/-- Body of the 500 response for an absent API key (server.js line 53). -/
def missingKeyMessage : String := "YouTube API key is not configured"

/-- Body of the 404 response when `videos.list` returns no item
(server.js line 69). -/
def notFoundMessage : String := "Video not found"

/-- The status mapping of the convert handler's `catch` block
(server.js lines 86-92): 400 when the message contains
`'not have automatic captions'`, 404 when it contains `'Video not found'`
or `'unavailable'`, 500 otherwise. -/
def convertStatus (msg : String) : Nat :=
  if strIncludes msg "not have automatic captions" then 400
  else if strIncludes msg "Video not found" || strIncludes msg "unavailable" then 404
  else 500

/-- The JSON response of the convert handler, restricted to the fields the
code sets: HTTP status, `success`, `error`, `text`, `videoTitle`. -/
structure ConvertResponse where
  status : Nat
  success : Bool
  error : Option String
  text : Option String
  videoTitle : Option String
  deriving Repr, DecidableEq

/-- Observable outcome of one `POST /api/convert` request: the response,
whether `youtube.videos.list` (the metadata lookup) was called, and the
resolution produced by `getTranscript` when it was called. -/
structure ConvertTrace where
  response : ConvertResponse
  metadataInvoked : Bool
  resolution : Option Resolution
  deriving Repr, DecidableEq

/-- Environment of one request: whether `YOUTUBE_API_KEY` is set, the
outcome of `youtube.videos.list` (the titles of the returned items, or a
rejection message), and the caption-source outcomes. -/
structure Env where
  apiKeyPresent : Bool
  videosList : Except String (List String)
  adapters : AdapterOutcomes
  deriving Repr, DecidableEq

/-- JS falsiness of `req.body.videoId` in `if (!videoId)`: absent or the
empty string. -/
def missingVideoId : Option String → Bool
  | none => true
  | some s => s.isEmpty

/-- The `POST /api/convert` handler (server.js lines 37-100) as a function
of the request's `videoId` field and the environment. -/
def convertHandler (env : Env) (videoId : Option String) : ConvertTrace :=
  if missingVideoId videoId then
    { response := { status := 400, success := false, error := some requiredIdMessage,
                    text := none, videoTitle := none },
      metadataInvoked := false, resolution := none }
  else if !env.apiKeyPresent then
    { response := { status := 500, success := false, error := some missingKeyMessage,
                    text := none, videoTitle := none },
      metadataInvoked := false, resolution := none }
  else
    match env.videosList with
    | .error m =>
        { response := { status := convertStatus m, success := false, error := some m,
                        text := none, videoTitle := none },
          metadataInvoked := true, resolution := none }
    | .ok items =>
        if items.length = 0 then
          { response := { status := 404, success := false, error := some notFoundMessage,
                          text := none, videoTitle := none },
            metadataInvoked := true, resolution := none }
        else
          match (getTranscript env.adapters).result with
          | .ok text =>
              { response := { status := 200, success := true, error := none,
                              text := some text, videoTitle := items.head? },
                metadataInvoked := true, resolution := some (getTranscript env.adapters) }
          | .error m =>
              { response := { status := convertStatus m, success := false, error := some m,
                              text := none, videoTitle := none },
                metadataInvoked := true, resolution := some (getTranscript env.adapters) }

/-- Right tail of a separator join: the separator followed by each further
element, used to relate `jsJoin` to `String.intercalate`. -/
def sepJoinTail (sep : String) : List String → String
  | [] => ""
  | a :: as => sep ++ a ++ sepJoinTail sep as

theorem intercalate_go_eq (sep : String) (as : List String) :
    ∀ acc : String, String.intercalate.go acc sep as = acc ++ sepJoinTail sep as := by
  induction as with
  | nil => intro acc; simp [String.intercalate.go, sepJoinTail]
  | cons a as ih =>
      intro acc
      rw [show String.intercalate.go acc sep (a :: as) =
            String.intercalate.go (acc ++ sep ++ a) sep as from rfl]
      rw [ih]
      simp [sepJoinTail, String.append_assoc]

theorem jsJoin_cons (sep : String) (a : String) (as : List String) :
    jsJoin sep (a :: as) = a ++ sepJoinTail sep as := by
  induction as generalizing a with
  | nil => simp [jsJoin, sepJoinTail]
  | cons b bs ih =>
      rw [show jsJoin sep (a :: b :: bs) = a ++ sep ++ jsJoin sep (b :: bs) from rfl, ih b]
      simp [sepJoinTail, String.append_assoc]

theorem jsJoin_eq_intercalate (sep : String) (l : List String) :
    jsJoin sep l = String.intercalate sep l := by
  cases l with
  | nil => rfl
  | cons a as =>
      rw [jsJoin_cons,
          show String.intercalate sep (a :: as) = String.intercalate.go a sep as from rfl,
          intercalate_go_eq]

theorem classify_cases (errs : List String) :
    classify errs = noCaptionsMessage ∨ classify errs = unavailableMessage ∨
      classify errs = genericFailureMessage := by
  unfold classify
  split
  · exact Or.inl rfl
  · split
    · exact Or.inr (Or.inl rfl)
    · exact Or.inr (Or.inr rfl)

theorem getTranscriptFromC_result (o : AdapterOutcomes) (errs : List String) :
    (getTranscriptFromC o errs).result = .error (classify (method3Errors o.c errs)) := rfl

theorem getTranscriptFromB_error_cases (o : AdapterOutcomes) (errs : List String) (m : String)
    (h : (getTranscriptFromB o errs).result = .error m) :
    m = noCaptionsMessage ∨ m = unavailableMessage ∨ m = genericFailureMessage := by
  unfold getTranscriptFromB at h
  split at h
  · split at h
    · simp at h
    · rw [getTranscriptFromC_result] at h
      injection h with h
      subst h
      exact classify_cases _
  · rw [getTranscriptFromC_result] at h
    injection h with h
    subst h
    exact classify_cases _

theorem getTranscript_error_cases (o : AdapterOutcomes) (m : String)
    (h : (getTranscript o).result = .error m) :
    m = noCaptionsMessage ∨ m = unavailableMessage ∨ m = genericFailureMessage := by
  unfold getTranscript at h
  split at h
  · split at h
    · simp at h
    · exact getTranscriptFromB_error_cases _ _ _ h
  · exact getTranscriptFromB_error_cases _ _ _ h

theorem convertHandler_cases (env : Env) (vid : Option String) :
    (convertHandler env vid).resolution = none ∨
    ((convertHandler env vid).resolution = some (getTranscript env.adapters) ∧
     ((∃ t, (getTranscript env.adapters).result = .ok t ∧
            (convertHandler env vid).response.error = none) ∨
      (∃ m, (getTranscript env.adapters).result = .error m ∧
            (convertHandler env vid).response.error = some m))) := by
  unfold convertHandler
  split
  · exact Or.inl rfl
  · split
    · exact Or.inl rfl
    · split
      · exact Or.inl rfl
      · split
        · exact Or.inl rfl
        · split
          next t heq => exact Or.inr ⟨rfl, Or.inl ⟨t, heq, rfl⟩⟩
          next m heq => exact Or.inr ⟨rfl, Or.inr ⟨m, heq, rfl⟩⟩

/-- C1: the claim says that when Adapter A fails, Adapter B yields zero
segments and Adapter C reports that caption tracks exist, `getTranscript`
throws the distinct captions-exist-but-inaccessible message.  The code
cannot do so: the captions-exist error is thrown inside Method 3's own
`try` and immediately caught and pushed onto `errors`, so `getTranscript`
never throws it for any adapter outcomes; at the claimed scenario it
throws the generic fallback message instead. -/
theorem c1_captions_exist_error_never_thrown :
    (∀ o : AdapterOutcomes, (getTranscript o).result ≠ .error captionsExistMessage) ∧
    (getTranscript { a := .error "boom", b := .ok [], c := .ok 1 }).result =
      .error genericFailureMessage ∧
    genericFailureMessage ≠ captionsExistMessage := by
  refine ⟨?_, by decide, by decide⟩
  intro o h
  rcases getTranscript_error_cases o captionsExistMessage h with h1 | h1 | h1 <;>
    exact absurd h1 (by decide)

/-- C2 counterexample: a failure set containing both a no-captions signal
(`Transcript is disabled`) and an unavailable signal (`unavailable`)
classifies as the no-captions message, not the unavailable message, so
`VideoUnavailable` does not take precedence. -/
theorem c2_no_captions_wins_counterexample :
    classify ["Transcript is disabled", "This video is unavailable"] = noCaptionsMessage ∧
    (["Transcript is disabled", "This video is unavailable"].any unavailableSignal) = true ∧
    noCaptionsMessage ≠ unavailableMessage := by decide

/-- C2 amended: the precedence is the opposite of the claimed one — the
no-captions branch is tested first, so any failure set containing a
no-captions signal classifies as `NoCaptionsAvailable`, even when an
unavailable/private signal is also present. -/
theorem c2_no_captions_precedence (errs : List String)
    (h : errs.any noCaptionsSignal = true) :
    classify errs = noCaptionsMessage := by
  simp [classify, h]

/-- C2 witness: the amended precedence rule at a concrete failure set
containing both kinds of signal. -/
theorem c2_no_captions_precedence_witness :
    ((["subtitles are disabled", "private video"].any noCaptionsSignal) = true) ∧
    classify ["subtitles are disabled", "private video"] = noCaptionsMessage :=
  ⟨by decide, c2_no_captions_precedence _ (by decide)⟩

/-- C3 counterexample: matching is case-sensitive (`String.prototype.includes`),
so an upper-cased raw message classifies differently from its mixed-case
variant: `TRANSCRIPT IS DISABLED` falls to the generic message while
`Transcript is disabled` classifies as no-captions. -/
theorem c3_case_sensitivity_counterexample :
    classify ["TRANSCRIPT IS DISABLED"] = genericFailureMessage ∧
    classify ["Transcript is disabled"] = noCaptionsMessage ∧
    genericFailureMessage ≠ noCaptionsMessage := by decide

/-- C3 amended: the classifier matches trigger phrases case-sensitively,
and classification is not invariant under changing the letter case of the
raw messages: upper-casing the characters of `Transcript is disabled`
moves the classification from the no-captions message to the generic
message. -/
theorem c3_case_sensitive_matching :
    classify [String.mk ("Transcript is disabled".data.map Char.toUpper)] =
      genericFailureMessage ∧
    classify ["Transcript is disabled"] = noCaptionsMessage ∧
    String.mk ("Transcript is disabled".data.map Char.toUpper) = "TRANSCRIPT IS DISABLED" := by
  decide

/-- C4: the claim says a resolution ending in `NoCaptionsAvailable` is
answered with HTTP 400.  The handler's 400 branch tests for the substring
`not have automatic captions`, but the classified no-captions message says
`not have available captions`, so the branch never fires and the handler
answers 500: evaluated at a request whose video exists and whose adapters
all fail with a no-captions signal, the response status is 500. -/
theorem c4_no_captions_yields_500 :
    (convertHandler
        { apiKeyPresent := true, videosList := .ok ["A title"],
          adapters := { a := .error "Transcript is disabled", b := .ok [], c := .ok 0 } }
        (some "dQw4w9WgXcQ")).response.status = 500 ∧
    (convertHandler
        { apiKeyPresent := true, videosList := .ok ["A title"],
          adapters := { a := .error "Transcript is disabled", b := .ok [], c := .ok 0 } }
        (some "dQw4w9WgXcQ")).response.success = false ∧
    (getTranscript { a := .error "Transcript is disabled", b := .ok [], c := .ok 0 }).result =
      .error noCaptionsMessage ∧
    convertStatus noCaptionsMessage = 500 ∧
    strIncludes noCaptionsMessage "not have automatic captions" = false := by decide

/-- C5: when Adapter A succeeds with at least one segment, `getTranscript`
returns that adapter's joined transcript immediately, records no failures,
and never invokes Adapter B or Adapter C. -/
theorem c5_short_circuit_on_first_success (o : AdapterOutcomes)
    (items : List TranscriptSegment) (ha : o.a = .ok items) (h : 0 < items.length) :
    getTranscript o =
      { result := .ok (jsJoin " " (items.map TranscriptSegment.text)), errors := [],
        invokedA := true, invokedB := false, invokedC := false } := by
  unfold getTranscript
  rw [ha]
  simp [h]

/-- C5 witness: the short-circuit at a concrete one-segment success for
Adapter A. -/
theorem c5_short_circuit_witness :
    0 < [TranscriptSegment.mk "Hello"].length ∧
    getTranscript { a := .ok [TranscriptSegment.mk "Hello"], b := .error "boom", c := .ok 0 } =
      { result := .ok (jsJoin " " ([TranscriptSegment.mk "Hello"].map TranscriptSegment.text)),
        errors := [], invokedA := true, invokedB := false, invokedC := false } :=
  ⟨by decide,
   c5_short_circuit_on_first_success _ [TranscriptSegment.mk "Hello"] rfl (by decide)⟩

/-- C6 counterexample: when Adapter A returns an empty segment list the
resolver does continue without returning success, but it records no
`AdapterFailure` for A: with A empty, B rejecting with `boom` and C
listing no tracks, the accumulated error list is exactly `["boom"]`, so
the empty result did not participate in classification. -/
theorem c6_no_failure_recorded_counterexample :
    (getTranscript { a := .ok [], b := .error "boom", c := .ok 0 }).errors = ["boom"] ∧
    (getTranscript { a := .ok [], b := .error "boom", c := .ok 0 }).result =
      .error genericFailureMessage := by decide

/-- C6 amended: an adapter returning an empty segment list is never
returned as a success — the resolver continues to the next adapter — but,
unlike a thrown failure, nothing is recorded for it: resolution proceeds
exactly as if the empty-returning adapter had been skipped, with the
`errors` accumulator unchanged. -/
theorem c6_empty_skipped_without_record (o : AdapterOutcomes) (ha : o.a = .ok []) :
    getTranscript o = getTranscriptFromB o [] ∧
    (∀ errs, o.b = .ok [] → getTranscriptFromB o errs = getTranscriptFromC o errs) := by
  constructor
  · unfold getTranscript
    rw [ha]
    simp
  · intro errs hb
    unfold getTranscriptFromB
    rw [hb]
    simp

/-- C6 witness: the amended skip-without-record behaviour at concrete
empty results for Adapters A and B. -/
theorem c6_empty_skipped_witness :
    getTranscript { a := .ok [], b := .ok [], c := .ok 0 } =
      getTranscriptFromB { a := .ok [], b := .ok [], c := .ok 0 } [] ∧
    getTranscriptFromB { a := .ok [], b := .ok [], c := .ok 0 } [] =
      getTranscriptFromC { a := .ok [], b := .ok [], c := .ok 0 } [] :=
  ⟨(c6_empty_skipped_without_record _ rfl).1,
   (c6_empty_skipped_without_record _ rfl).2 [] rfl⟩

/-- C7: a convert request whose `videoId` is missing or empty is answered
with HTTP 400 and `success: false`, and neither the metadata lookup nor
any caption-source adapter is invoked. -/
theorem c7_missing_video_id_no_calls (env : Env) (videoId : Option String)
    (h : missingVideoId videoId = true) :
    (convertHandler env videoId).response.status = 400 ∧
    (convertHandler env videoId).response.success = false ∧
    (convertHandler env videoId).metadataInvoked = false ∧
    (convertHandler env videoId).resolution = none := by
  simp [convertHandler, h]

/-- C7 witness: the missing-id behaviour at a concrete request with no
`videoId` field. -/
theorem c7_missing_video_id_witness :
    (convertHandler
        { apiKeyPresent := true, videosList := .ok ["A title"],
          adapters := { a := .ok [], b := .ok [], c := .ok 0 } } none).response.status = 400 ∧
    (convertHandler
        { apiKeyPresent := true, videosList := .ok ["A title"],
          adapters := { a := .ok [], b := .ok [], c := .ok 0 } } none).response.success = false ∧
    (convertHandler
        { apiKeyPresent := true, videosList := .ok ["A title"],
          adapters := { a := .ok [], b := .ok [], c := .ok 0 } } none).metadataInvoked = false ∧
    (convertHandler
        { apiKeyPresent := true, videosList := .ok ["A title"],
          adapters := { a := .ok [], b := .ok [], c := .ok 0 } } none).resolution = none :=
  c7_missing_video_id_no_calls _ none rfl

/-- C8: whenever the convert handler ran the resolver and the resolution
was exhausted (ended in an error), the response's `error` field carries
exactly the resolver's classified message, and that message is one of the
three fixed classified messages — never an individual adapter's raw
provider text. -/
theorem c8_only_classified_messages_surfaced (env : Env) (vid : Option String)
    (r : Resolution) (m : String)
    (hr : (convertHandler env vid).resolution = some r)
    (hm : r.result = .error m) :
    (convertHandler env vid).response.error = some m ∧
    (m = noCaptionsMessage ∨ m = unavailableMessage ∨ m = genericFailureMessage) := by
  rcases convertHandler_cases env vid with hnone | ⟨hsome, hres⟩
  · rw [hnone] at hr
    exact absurd hr (by simp)
  · rw [hsome] at hr
    have hr' : getTranscript env.adapters = r := Option.some.inj hr
    subst hr'
    rcases hres with ⟨t, ht, _⟩ | ⟨m', hm', herr⟩
    · rw [ht] at hm
      exact absurd hm (by simp)
    · rw [hm'] at hm
      injection hm with hm
      subst hm
      exact ⟨herr, getTranscript_error_cases _ _ hm'⟩

/-- C8 witness: the classified-only property at a concrete exhausted
resolution whose raw adapter messages match no trigger phrase. -/
theorem c8_only_classified_witness :
    (convertHandler
        { apiKeyPresent := true, videosList := .ok ["A title"],
          adapters := { a := .error "boom", b := .error "crash", c := .ok 0 } }
        (some "vid")).response.error = some genericFailureMessage ∧
    (genericFailureMessage = noCaptionsMessage ∨ genericFailureMessage = unavailableMessage ∨
      genericFailureMessage = genericFailureMessage) :=
  c8_only_classified_messages_surfaced _ (some "vid")
    (getTranscript { a := .error "boom", b := .error "crash", c := .ok 0 })
    genericFailureMessage (by decide) (by decide)

/-- C9: a non-empty segment list returned by a successful adapter (A or B)
yields a transcript equal to the segments' `text` fields joined with a
single space in order (`String.intercalate " "`), and joining
`["Hello", "world"]` yields exactly `Hello world`. -/
theorem c9_single_space_join (items : List TranscriptSegment) (h : 0 < items.length) :
    (∀ o : AdapterOutcomes, o.a = .ok items →
        (getTranscript o).result =
          .ok (String.intercalate " " (items.map TranscriptSegment.text))) ∧
    (∀ (o : AdapterOutcomes) (errs : List String), o.b = .ok items →
        (getTranscriptFromB o errs).result =
          .ok (String.intercalate " " (items.map TranscriptSegment.text))) ∧
    jsJoin " " ["Hello", "world"] = "Hello world" := by
  refine ⟨?_, ?_, by decide⟩
  · intro o ha
    unfold getTranscript
    rw [ha]
    simp [h, jsJoin_eq_intercalate]
  · intro o errs hb
    unfold getTranscriptFromB
    rw [hb]
    simp [h, jsJoin_eq_intercalate]

/-- C9 witness: the single-space join at the concrete two-segment list
`Hello`, `world` returned by Adapter A. -/
theorem c9_single_space_join_witness :
    (getTranscript
      { a := .ok [TranscriptSegment.mk "Hello", TranscriptSegment.mk "world"],
        b := .error "boom", c := .ok 0 }).result =
      .ok (String.intercalate " "
        ([TranscriptSegment.mk "Hello", TranscriptSegment.mk "world"].map
          TranscriptSegment.text)) :=
  (c9_single_space_join _ (by decide)).1 _ rfl

/-- C10: the non-emptiness check counts segments, not text: a first
adapter returning two segments whose `text` fields are empty produces a
success whose transcript text is a single space — a string with no
non-space character — at the public interface. -/
theorem c10_success_with_all_space_text :
    (getTranscript
      { a := .ok [TranscriptSegment.mk "", TranscriptSegment.mk ""],
        b := .error "boom", c := .ok 0 }).result = .ok " " ∧
    (" ".data.all fun ch => ch == ' ') = true := by decide

end YtTranscript
